import Mathlib

/-!
Shallow embedding of the authentication / account-lockout core of the
StudyConnect social-network application (User model, MongoDB manager's
degraded-mode collections, auth routes, role middleware), together with
theorems checking the specification's claims against it.

Sources embedded:
- `database/models/User.js` (src/unnamed/part_000, first document):
  `createUser`, `authenticate`, `deleteUser`.
- `database/mongo.js`, two variants present in the repository:
  the variant of src/unnamed/part_000 (second document, lines 492-551)
  and the variant of src/unnamed/part_001 (first document, lines 134-206);
  both versions of `MongoDBManager.getCollection`'s degraded-mode object.
- `routes/auth.js` (src/unnamed/part_004): `router.post('/register')`.
- `middleware/auth.js`: `requireRole`.

JavaScript numbers that hold timestamps or counters are modelled as `Nat`
(`Date.now()` is a nonnegative integer number of milliseconds); JavaScript
object payloads are modelled as association lists of string keys to a small
JSON-like value type; thrown exceptions are modelled with `Except`.
-/

/-- A JSON-like value, modelling the JavaScript objects that appear in
result payloads (`{id, name, email, ...}`). -/
inductive JsVal where
  | null
  | bool (b : Bool)
  | num (n : Nat)
  | str (s : String)
  | obj (fields : List (String × JsVal))

/-- The `profile` sub-record of an account document
(part_000 lines 70-77). -/
structure Profile where
  bio : String
  university : String
  major : String
  year : String
  avatar : String
  socialLinks : List (String × String)
deriving DecidableEq

/-- The `preferences` sub-record of an account document
(part_000 lines 78-81). -/
structure Preferences where
  emailNotifications : Bool
  theme : String
deriving DecidableEq

/-- An account document of the `users` collection, with the fields built by
`User.createUser` (part_000 lines 61-85).  `_id` is the store-assigned
document identifier, modelled as a `Nat`. -/
structure Account where
  _id : Nat
  name : String
  email : String
  username : String
  password : String
  role : String
  createdAt : Nat
  updatedAt : Nat
  isActive : Bool
  profile : Profile
  preferences : Preferences
  lastLogin : Option Nat
  loginAttempts : Nat
  lockUntil : Option Nat
deriving DecidableEq

/-- ASCII lowering of one character, modelling what
`String.prototype.toLowerCase()` does on the ASCII range (the only range
exercised by this development). -/
def lowerChar (c : Char) : Char :=
  if 'A' ≤ c && c ≤ 'Z' then Char.ofNat (c.toNat + 32) else c

/-- Models JavaScript `s.toLowerCase()` (ASCII range). -/
def jsToLower (s : String) : String := String.mk (s.data.map lowerChar)

/-- Does the second list start with the first?  (Helper for the substring
check below.) -/
def startMatch : List Char → List Char → Bool
  | [], _ => true
  | _ :: _, [] => false
  | a :: as, b :: bs => a == b && startMatch as bs

/-- Does `sub` occur contiguously inside the second list? -/
def occursIn (sub : List Char) : List Char → Bool
  | [] => startMatch sub []
  | c :: cs => startMatch sub (c :: cs) || occursIn sub cs

/-- Models JavaScript `s.includes(sub)`. -/
def strIncludes (s sub : String) : Bool := occursIn sub.data s.data

/-- A character matched by the JavaScript regex class `\s` (ASCII part). -/
def isJsSpace (c : Char) : Bool :=
  c == ' ' || c == '\t' || c == '\n' || c == '\r' || c == '\x0b' || c == '\x0c'

/-- A character matched by the regex class `[^\s@]`. -/
def emailAtomChar (c : Char) : Bool := !isJsSpace c && c != '@'

/-- Splits a character list at the first occurrence of `c`, when present. -/
def breakAtFirst (c : Char) : List Char → Option (List Char × List Char)
  | [] => none
  | a :: as =>
    if a == c then some ([], as)
    else (breakAtFirst c as).map (fun p => (a :: p.1, p.2))

/-- Is there a `'.'` that is neither the first nor the last character?
(This is exactly what the tail `[^\s@]+\.[^\s@]+` of the email regex
requires of the domain part, given that every character is in `[^\s@]`,
a class that itself contains `'.'`.) -/
def innerDotTail : List Char → Bool
  | [] => false
  | [_] => false
  | c :: rest => c == '.' || innerDotTail rest

/-- See `innerDotTail`: drops the first character, then looks for a dot with
at least one character after it. -/
def hasInnerDot : List Char → Bool
  | [] => false
  | _ :: rest => innerDotTail rest

/-- Models `/^[^\s@]+@[^\s@]+\.[^\s@]+$/.test(email)`
(part_000 line 46): a nonempty `[^\s@]` run, one `'@'`, and a domain part of
`[^\s@]` characters containing an interior `'.'`. -/
def matchesEmailRegex (s : String) : Bool :=
  match breakAtFirst '@' s.data with
  | none => false
  | some (l, r) =>
    !l.isEmpty && l.all emailAtomChar && !r.isEmpty && r.all emailAtomChar
      && hasInnerDot r

/-- The account store seen by the User model: either a live connection to
the `users` collection (modelled as the list of its documents) or the
degraded mode in which `MongoDBManager.getCollection` (part_001 variant,
lines 134-206) hands back a mock collection. -/
inductive Store where
  | connected (db : List Account)
  | degraded
deriving DecidableEq

/-- `collection.findOne(query)`: first document matching the query on a live
connection; the part_001 mock returns `null` (lines 161-164). -/
def storeFindOne (s : Store) (p : Account → Bool) : Option Account :=
  match s with
  | .connected db => db.find? p
  | .degraded => none

/-- `collection.updateOne(filter, update)`: rewrites the first document
matching `p` with `f` on a live connection; the part_001 mock acknowledges
without touching any state (lines 179-185). -/
def updateFirst (p : Account → Bool) (f : Account → Account) : List Account → List Account
  | [] => []
  | a :: as => if p a then f a :: as else a :: updateFirst p f as

/-- See `updateFirst`. -/
def storeUpdateOne (s : Store) (p : Account → Bool) (f : Account → Account) : Store :=
  match s with
  | .connected db => .connected (updateFirst p f db)
  | .degraded => .degraded

/-- The duplicate-key (code 11000) error message raised by the backing
store when the unique index on `field` is violated by `value`; the index
names `email_1`/`username_1` and the offending keys appear in the message,
per the store's standard `E11000` message shape.  The unique indexes
themselves are created in `User.initialize` (part_000 lines 17-18). -/
def dupKeyMessage (field value : String) : String :=
  "E11000 duplicate key error collection: studyconnect.users index: "
    ++ field ++ "_1 dup key: " ++ field ++ ": " ++ value

/-- `collection.insertOne(document)`.  On a live connection the store
enforces the two unique indexes (email first, then username, in creation
order) and otherwise appends the document, returning its `insertedId`; the
part_001 mock acknowledges with a `'mock-id-' + Date.now()` placeholder and
stores nothing (lines 165-171).  `.inr msg` models a thrown duplicate-key
error carrying message `msg`. -/
def storeInsertOne (s : Store) (now : Nat) (doc : Account) :
    (Store × JsVal) ⊕ String :=
  match s with
  | .connected db =>
    if db.any (fun v => v.email == doc.email) then
      .inr (dupKeyMessage "email" doc.email)
    else if db.any (fun v => v.username == doc.username) then
      .inr (dupKeyMessage "username" doc.username)
    else
      .inl (.connected (db ++ [doc]), .num doc._id)
  | .degraded => .inl (.degraded, .str ("mock-id-" ++ Nat.repr now))

/-- The errors `User.authenticate` surfaces: its own thrown `Error`s
(part_000 lines 138, 144, 165) and, rethrown by the catch at line 196, the
store's rejection of an update document whose operators target the same
path (`ConflictingUpdateOperators`, error code 40). -/
inductive AuthErr where
  | invalidCredentials
  | accountLocked (minutes : Nat)
  | storeConflict (path : String)
deriving DecidableEq

/-- The message string of the surfaced error.  The store's conflict
message quotes the path (in the driver: `Updating the path
'loginAttempts' would create a conflict at 'loginAttempts'`); the quotes
are omitted here, which no theorem depends on. -/
def AuthErr.message : AuthErr → String
  | .invalidCredentials => "Invalid credentials"
  | .accountLocked m =>
      "Account is locked. Try again in " ++ Nat.repr m ++ " minutes"
  | .storeConflict p =>
      "Updating the path " ++ p ++ " would create a conflict at " ++ p

/-- The account-lookup query of `User.authenticate` (part_000 lines
124-130): `(email == id OR username == id) AND isActive == true`, for the
already-lowercased identifier. -/
def lookupQuery (idLower : String) (v : Account) : Bool :=
  (v.email == idLower || v.username == idLower) && v.isActive

/-- `user.lockUntil && user.lockUntil > Date.now()` (part_000 line 142).
A `lockUntil` of `0` is falsy in JavaScript, and `0 > now` also fails, so
matching on the option is faithful. -/
def isLockedNow (lockUntil : Option Nat) (now : Nat) : Bool :=
  match lockUntil with
  | some t => now < t
  | none => false

/-- `Math.ceil((user.lockUntil - Date.now()) / 1000 / 60)` (part_000 line
143): the ceiling of an exact division of the remaining milliseconds by
60000, written as a Nat ceiling division. -/
def lockMinutes (lockUntil : Option Nat) (now : Nat) : Nat :=
  match lockUntil with
  | some t => (t - now + 59999) / 60000
  | none => 0

/-- The `{id, name, email, username, role, profile, createdAt}` projection
returned on successful authentication (part_000 lines 186-194). -/
def profileVal (p : Profile) : JsVal :=
  .obj [("bio", .str p.bio), ("university", .str p.university),
        ("major", .str p.major), ("year", .str p.year),
        ("avatar", .str p.avatar),
        ("socialLinks", .obj (p.socialLinks.map (fun kv => (kv.1, .str kv.2))))]

/-- See `profileVal`. -/
def authUserPayload (u : Account) : List (String × JsVal) :=
  [("id", .num u._id), ("name", .str u.name), ("email", .str u.email),
   ("username", .str u.username), ("role", .str u.role),
   ("profile", profileVal u.profile), ("createdAt", .num u.createdAt)]

/-- The value `User.authenticate` resolves with on success:
`{success: true, user: {...}}` (part_000 lines 184-195). -/
structure AuthReturn where
  success : Bool
  user : List (String × JsVal)

/-- One call to `User.authenticate`: its resolved value or thrown error,
the account store afterwards, and whether `comparePassword` was reached
(that flag records evaluation order, for the lock-check-precedes-comparison
claim). -/
structure AuthOutcome where
  result : Except AuthErr AuthReturn
  store : Store
  comparedPassword : Bool

/-- The outcome of the failed-password branch (part_000 lines 151-165).
The update document built there is `{$inc: {loginAttempts: 1}, $set:
{updatedAt: ...}}`, and on the lock transition
(`user.loginAttempts + 1 >= 5`, line 159) the `$set` additionally assigns
`lockUntil` and `loginAttempts: 0` — so `$inc` and `$set` then both
target the path `loginAttempts`.  A live store rejects such a document
wholesale (`ConflictingUpdateOperators`, error code 40): `updateOne`
throws, nothing is persisted, line 165's `throw` is never reached, and
the catch at line 196 rethrows the store error.  The degraded mock
`updateOne` (part_001 lines 179-185) acknowledges any document without
validating it, after which line 165 throws `Invalid credentials`.  Below
the transition the two operators target distinct paths and the update
applies: `loginAttempts` is incremented and `updatedAt` set. -/
def failedAttemptOutcome (s : Store) (now : Nat) (user : Account) :
    AuthOutcome :=
  if 5 ≤ user.loginAttempts + 1 then
    match s with
    | .connected db =>
        ⟨.error (.storeConflict "loginAttempts"), .connected db, true⟩
    | .degraded => ⟨.error .invalidCredentials, .degraded, true⟩
  else
    ⟨.error .invalidCredentials,
     storeUpdateOne s (fun v => v._id == user._id)
       (fun _ =>
         { user with loginAttempts := user.loginAttempts + 1,
                     updatedAt := now }), true⟩

/-- `User.authenticate(emailOrUsername, password)` (part_000 lines
122-200), parameterized by the bcrypt comparison
`verify plaintext storedHash`.  Failed password verification defers to
`failedAttemptOutcome`, which models the store's rejection of the
conflicting lock-transition update. -/
def authenticate (verify : String → String → Bool) (s : Store) (now : Nat)
    (emailOrUsername password : String) : AuthOutcome :=
  match storeFindOne s (lookupQuery (jsToLower emailOrUsername)) with
  | none => ⟨.error .invalidCredentials, s, false⟩
  | some user =>
    if isLockedNow user.lockUntil now then
      ⟨.error (.accountLocked (lockMinutes user.lockUntil now)), s, false⟩
    else if !(verify password user.password) then
      failedAttemptOutcome s now user
    else
      ⟨.ok ⟨true, authUserPayload user⟩,
       storeUpdateOne s (fun v => v._id == user._id)
         (fun v => { v with loginAttempts := 0, lockUntil := none,
                            lastLogin := some now, updatedAt := now }),
       true⟩

/-- The new-account document built by `User.createUser` (part_000 lines
61-85), with `hash` the bcrypt hashing function and `newId` the `_id` the
store will assign on insert. -/
def mkNewAccount (hash : String → String) (now newId : Nat)
    (name email password username role : String) : Account :=
  { _id := newId, name,
    email := jsToLower email, username := jsToLower username,
    password := hash password, role,
    createdAt := now, updatedAt := now, isActive := true,
    profile := ⟨"", "", "", "", "", []⟩,
    preferences := ⟨true, "dark"⟩,
    lastLogin := none, loginAttempts := 0, lockUntil := none }

/-- The `{id, name, email, username, role}` projection returned by
`User.createUser` (part_000 lines 100-106), with `id := result.insertedId`. -/
def createUserPayload (insertedId : JsVal) (doc : Account) :
    List (String × JsVal) :=
  [("id", insertedId), ("name", .str doc.name), ("email", .str doc.email),
   ("username", .str doc.username), ("role", .str doc.role)]

/-- The value `User.createUser` resolves with:
`{success: true, userId, user: {...}}` (part_000 lines 97-107). -/
structure CreateReturn where
  success : Bool
  userId : JsVal
  user : List (String × JsVal)

/-- `User.createUser(userData)` (part_000 lines 34-120): field presence
(JavaScript falsiness of a missing or empty string), email-shape and
password-length validation, then insert; a duplicate-key (code 11000)
error is re-thrown as `"Email already exists"` or
`"Username already exists"` according to whether the store's error message
contains the substring `'email'` (lines 114-117).  Thrown errors are the
`.error` case, carrying the message. -/
def createUser (hash : String → String) (s : Store) (now newId : Nat)
    (name email password username role : String) :
    Except String (CreateReturn × Store) :=
  if name == "" || email == "" || password == "" || username == "" then
    .error "All fields are required"
  else if !(matchesEmailRegex email) then
    .error "Invalid email format"
  else if password.length < 6 then
    .error "Password must be at least 6 characters"
  else
    match storeInsertOne s now
        (mkNewAccount hash now newId name email password username role) with
    | .inl (s', insertedId) =>
        .ok (⟨true, insertedId,
              createUserPayload insertedId
                (mkNewAccount hash now newId name email password username role)⟩,
             s')
    | .inr msg =>
        .error ((if strIncludes msg "email" then "Email" else "Username")
                  ++ " already exists")

/-- The `$set` document of the soft delete (part_000 lines 295-300),
applied to the matched document; the rewritten email and username carry
the `deleted_<Date.now()>_` marker computed from the previously fetched
account `u`. -/
def softDeleteSet (now : Nat) (u : Account) (v : Account) : Account :=
  { v with isActive := false, updatedAt := now,
           email := "deleted_" ++ Nat.repr now ++ "_" ++ u.email,
           username := "deleted_" ++ Nat.repr now ++ "_" ++ u.username }

/-- `User.deleteUser(userId)` (part_000 lines 280-308): fetch the account,
then soft-delete it by the single update `softDeleteSet`. -/
def deleteUser (db : List Account) (now : Nat) (uid : Nat) :
    Except String (Bool × List Account) :=
  match db.find? (fun v => v._id == uid) with
  | none => .error "User not found"
  | some u =>
    .ok (true, updateFirst (fun v => v._id == uid) (softDeleteSet now u) db)

/-- The sanitized user payload held in `req.session.user`; only the `role`
field matters to the role middleware. -/
structure SessionUser where
  role : String
deriving DecidableEq

/-- What a middleware does with the request. -/
inductive RouteOutcome where
  | redirectLogin
  | forbidden
  | next
deriving DecidableEq

/-- `requireRole(role)` from `middleware/auth.js` lines 14-27: no session
user redirects to login; a role that is neither the required one nor
`'admin'` gets `403 Access denied`; otherwise the request proceeds. -/
def requireRole (role : String) (sessionUser : Option SessionUser) :
    RouteOutcome :=
  match sessionUser with
  | none => .redirectLogin
  | some u =>
    if u.role != role && u.role != "admin" then .forbidden else .next

/-- Where `router.post('/register')` redirects. -/
inductive Redirect where
  | home
  | login
  | register
deriving DecidableEq

/-- The session fields the register route touches: `formData` (line 1010),
one-shot `error` / `success` messages, and the logged-in `user`. -/
structure RegisterSession where
  formData : Option (String × String × String)
  error : Option String
  success : Option String
  user : Option (List (String × JsVal))

/-- Result of one `POST /auth/register` request. -/
structure RouteResult where
  redirect : Redirect
  session : RegisterSession
  store : Store

/-- `router.post('/register')` (part_004 lines 999-1071): route-level
validation, `User.createUser`, then the auto-login call to
`User.authenticate`; any error thrown by either call is caught at line
1064 and turned into an error flash plus a redirect back to
`/auth/register`. -/
def registerRoute (hash : String → String) (verify : String → String → Bool)
    (s : Store) (now newId : Nat)
    (name email username password confirmPassword : String) : RouteResult :=
  let fd := some (name, email, username)
  if name == "" || email == "" || username == "" || password == ""
      || confirmPassword == "" then
    ⟨.register, ⟨fd, some "All fields are required", none, none⟩, s⟩
  else if password != confirmPassword then
    ⟨.register, ⟨fd, some "Passwords do not match", none, none⟩, s⟩
  else if password.length < 6 then
    ⟨.register, ⟨fd, some "Password must be at least 6 characters", none, none⟩, s⟩
  else
    match createUser hash s now newId name email password username "student" with
    | .error msg => ⟨.register, ⟨fd, some msg, none, none⟩, s⟩
    | .ok (cres, s') =>
      if cres.success then
        let out := authenticate verify s' now email password
        match out.result with
        | .error e =>
            ⟨.register, ⟨fd, some e.message, none, none⟩, out.store⟩
        | .ok ares =>
          if ares.success then
            ⟨.home, ⟨none, none,
              some "Account created successfully! Welcome to StudyConnect!",
              some ares.user⟩, out.store⟩
          else
            ⟨.login, ⟨fd, none, some "Account created! Please log in.", none⟩,
             out.store⟩
      else
        ⟨.register, ⟨fd, some "Failed to create account", none, none⟩, s'⟩

/-- Result of `insertOne` at the collection interface. -/
structure InsOneResult where
  insertedId : String
  acknowledged : Bool
deriving DecidableEq

/-- Result of `insertMany` at the collection interface. -/
structure InsManyResult where
  insertedIds : List String
  acknowledged : Bool
deriving DecidableEq

/-- Result of `updateOne` at the collection interface. -/
structure UpdResult where
  modifiedCount : Nat
  acknowledged : Bool
deriving DecidableEq

/-- Result of `deleteOne` at the collection interface. -/
structure DelResult where
  deletedCount : Nat
  acknowledged : Bool
deriving DecidableEq

namespace MongoV1

/-!
The collection object `MongoDBManager.getCollection(name)` of the part_001
variant returns when `this.db` is null (degraded mode, lines 134-206).
Every method is a stateless mock: it logs, touches no real state, and
never throws, so each model below is a total function whose `Except`
result is always `.ok`.
-/

/-- The chainable cursor returned by the mock `find` (lines 139-160):
`sort`/`skip`/`limit`/`project` return `this`, `toArray` resolves to `[]`. -/
structure MockCursor where
  rows : List JsVal

/-- Mock `find(query)` (line 139). -/
def find (query : JsVal) : MockCursor := ⟨[]⟩

/-- Mock cursor `sort` (line 144). -/
def MockCursor.sort (c : MockCursor) (sortBy : JsVal) : MockCursor := c

/-- Mock cursor `skip` (line 148). -/
def MockCursor.skip (c : MockCursor) (offset : Nat) : MockCursor := c

/-- Mock cursor `limit` (line 152). -/
def MockCursor.limit (c : MockCursor) (n : Nat) : MockCursor := c

/-- Mock cursor `project` (line 156). -/
def MockCursor.project (c : MockCursor) (projection : JsVal) : MockCursor := c

/-- Mock cursor `toArray` (line 140). -/
def MockCursor.toArray (c : MockCursor) : Except String (List JsVal) :=
  .ok c.rows

/-- Mock `findOne(query)` (lines 161-164): resolves to `null`. -/
def findOne (query : JsVal) : Except String (Option JsVal) := .ok none

/-- Mock `insertOne(document)` (lines 165-171): acknowledges with the
placeholder id `'mock-id-' + Date.now()`. -/
def insertOne (now : Nat) (document : JsVal) : Except String InsOneResult :=
  .ok ⟨"mock-id-" ++ Nat.repr now, true⟩

/-- Mock `insertMany(documents)` (lines 172-178). -/
def insertMany (now : Nat) (documents : List JsVal) :
    Except String InsManyResult :=
  .ok ⟨(List.range documents.length).map
        (fun i => "mock-id-" ++ Nat.repr now ++ "-" ++ Nat.repr i), true⟩

/-- Mock `updateOne(filter, update)` (lines 179-185). -/
def updateOne (filter update : JsVal) : Except String UpdResult :=
  .ok ⟨0, true⟩

/-- Mock `deleteOne(filter)` (lines 186-192). -/
def deleteOne (filter : JsVal) : Except String DelResult :=
  .ok ⟨0, true⟩

/-- Mock `countDocuments(query)` (lines 193-196). -/
def countDocuments (query : JsVal) : Except String Nat := .ok 0

/-- Mock `aggregate(pipeline).toArray()` (lines 197-202). -/
def aggregateToArray (pipeline : List JsVal) : Except String (List JsVal) :=
  .ok []

end MongoV1

namespace MongoV0

/-!
The collection object `MongoDBManager.getCollection(name)` of the part_000
variant returns when `this.db` is null (lines 492-551).  Its `find`,
`findOne` and `insertOne` closures re-check `this.db` at call time and
throw `Database not connected for collection: <name>` when it is still
null, delegating to the live collection otherwise (the delegated result is
a parameter here); its `insertMany`, `updateOne`, `deleteOne`,
`countDocuments` and `aggregate` are stateless mocks exactly as in the
part_001 variant.
-/

/-- `find(query)` (lines 498-504): throws when still disconnected. -/
def find (name : String) (connected : Bool) (delegate : List JsVal)
    (query : JsVal) : Except String (List JsVal) :=
  if connected then .ok delegate
  else .error ("Database not connected for collection: " ++ name)

/-- `findOne(query)` (lines 505-511): throws when still disconnected. -/
def findOne (name : String) (connected : Bool) (delegate : Option JsVal)
    (query : JsVal) : Except String (Option JsVal) :=
  if connected then .ok delegate
  else .error ("Database not connected for collection: " ++ name)

/-- `insertOne(document)` (lines 512-518): throws when still
disconnected. -/
def insertOne (name : String) (connected : Bool) (delegate : InsOneResult)
    (document : JsVal) : Except String InsOneResult :=
  if connected then .ok delegate
  else .error ("Database not connected for collection: " ++ name)

/-- Mock `insertMany(documents)` (lines 519-525). -/
def insertMany (now : Nat) (documents : List JsVal) :
    Except String InsManyResult :=
  .ok ⟨(List.range documents.length).map
        (fun i => "mock-id-" ++ Nat.repr now ++ "-" ++ Nat.repr i), true⟩

/-- Mock `updateOne(filter, update)` (lines 526-532). -/
def updateOne (filter update : JsVal) : Except String UpdResult :=
  .ok ⟨0, true⟩

/-- Mock `deleteOne(filter)` (lines 533-539). -/
def deleteOne (filter : JsVal) : Except String DelResult :=
  .ok ⟨0, true⟩

/-- Mock `countDocuments(query)` (lines 540-543). -/
def countDocuments (query : JsVal) : Except String Nat := .ok 0

/-- Mock `aggregate(pipeline).toArray()` (lines 544-549). -/
def aggregateToArray (pipeline : List JsVal) : Except String (List JsVal) :=
  .ok []

end MongoV0

/-- A concrete stand-in for bcrypt hashing, used only to instantiate
witnesses (the code treats the hash as an opaque function). -/
def demoHash (plaintext : String) : String := "H-" ++ plaintext

/-- The matching stand-in for bcrypt comparison. -/
def demoVerify (plaintext digest : String) : Bool := digest == "H-" ++ plaintext

/-- A concrete active account used by witnesses. -/
def acctA : Account :=
  { _id := 1, name := "Alice", email := "a@x.com", username := "a1",
    password := "H-secret1", role := "student",
    createdAt := 10, updatedAt := 10, isActive := true,
    profile := ⟨"", "", "", "", "", []⟩, preferences := ⟨true, "dark"⟩,
    lastLogin := none, loginAttempts := 0, lockUntil := none }

/-- A concrete account whose username contains the substring `email`. -/
def acctB : Account :=
  { _id := 2, name := "Bob", email := "x@y.com", username := "email",
    password := "H-secret2", role := "student",
    createdAt := 10, updatedAt := 10, isActive := true,
    profile := ⟨"", "", "", "", "", []⟩, preferences := ⟨true, "dark"⟩,
    lastLogin := none, loginAttempts := 0, lockUntil := none }

/-- A concrete account locked until t = 900001 ms. -/
def acctL : Account :=
  { acctA with _id := 3, email := "l@x.com", username := "l1",
               lockUntil := some 900001 }

/-- An element of `updateFirst p f db` is either the image of the unique
match of `p` or an untouched element of `db` not matching `p`. -/
theorem updateFirst_sound (p : Account → Bool) (f : Account → Account) :
    ∀ (db : List Account) (u : Account), db.find? p = some u →
      db.countP p ≤ 1 →
      ∀ v ∈ updateFirst p f db, v = f u ∨ (v ∈ db ∧ p v = false) := by
  intro db
  induction db with
  | nil => intro u h; simp [List.find?] at h
  | cons a as ih =>
    intro u hfind hcount v hv
    by_cases hpa : p a = true
    · have hu : u = a := by
        rw [List.find?_cons_of_pos _ hpa] at hfind
        exact (Option.some.injEq _ _ ▸ hfind.symm)
      have hzero : as.countP p = 0 := by
        rw [List.countP_cons, if_pos hpa] at hcount
        omega
      have hnone : ∀ w ∈ as, p w = false := by
        intro w hw
        have := List.countP_eq_zero.mp hzero w hw
        simpa using this
      rw [updateFirst, if_pos hpa] at hv
      rcases List.mem_cons.mp hv with h | h
      · exact Or.inl (hu ▸ h)
      · exact Or.inr ⟨List.mem_cons_of_mem _ h, hnone v h⟩
    · have hpa' : p a = false := by simpa using hpa
      rw [List.find?_cons_of_neg _ (by simp [hpa'])] at hfind
      have hcount' : as.countP p ≤ 1 := by
        rw [List.countP_cons, if_neg (by simp [hpa'])] at hcount
        omega
      rw [updateFirst, if_neg (by simp [hpa'])] at hv
      rcases List.mem_cons.mp hv with h | h
      · exact Or.inr ⟨List.mem_cons.mpr (Or.inl h), h ▸ hpa'⟩
      · rcases ih u hfind hcount' v h with h' | h'
        · exact Or.inl h'
        · exact Or.inr ⟨List.mem_cons_of_mem _ h'.1, h'.2⟩

/-- The rewritten image of the match found by `find?` is a member of
`updateFirst p f db`. -/
theorem updateFirst_has (p : Account → Bool) (f : Account → Account) :
    ∀ (db : List Account) (u : Account), db.find? p = some u →
      f u ∈ updateFirst p f db := by
  intro db
  induction db with
  | nil => intro u h; simp [List.find?] at h
  | cons a as ih =>
    intro u hfind
    by_cases hpa : p a = true
    · rw [List.find?_cons_of_pos _ hpa] at hfind
      have hu : u = a := (Option.some.injEq _ _ ▸ hfind.symm)
      rw [updateFirst, if_pos hpa, hu]
      exact List.mem_cons_self _ _
    · have hpa' : p a = false := by simpa using hpa
      rw [List.find?_cons_of_neg _ (by simp [hpa'])] at hfind
      rw [updateFirst, if_neg (by simp [hpa'])]
      exact List.mem_cons_of_mem _ (ih u hfind)

/-- If a list starts with `sub`, so does any extension of it. -/
theorem startMatch_append (sub : List Char) :
    ∀ (l l' : List Char), startMatch sub l = true →
      startMatch sub (l ++ l') = true := by
  induction sub with
  | nil => intro l l' _; rfl
  | cons a as ih =>
    intro l l' h
    cases l with
    | nil => simp [startMatch] at h
    | cons b bs =>
      rw [startMatch, Bool.and_eq_true] at h
      rw [List.cons_append, startMatch, Bool.and_eq_true]
      exact ⟨h.1, ih bs l' h.2⟩

/-- A substring occurrence survives appending on the right. -/
theorem occursIn_append_left (sub : List Char) :
    ∀ (l l' : List Char), occursIn sub l = true →
      occursIn sub (l ++ l') = true := by
  intro l
  induction l with
  | nil =>
    intro l' h
    rw [occursIn] at h
    cases sub with
    | nil =>
      cases l' with
      | nil => rfl
      | cons c cs => rw [List.nil_append, occursIn, Bool.or_eq_true]
                     exact Or.inl rfl
    | cons a as => simp [startMatch] at h
  | cons c cs ih =>
    intro l' h
    rw [occursIn, Bool.or_eq_true] at h
    rw [List.cons_append, occursIn, Bool.or_eq_true]
    rcases h with h | h
    · exact Or.inl (by rw [← List.cons_append]; exact startMatch_append _ _ _ h)
    · exact Or.inr (ih l' h)

/-- `strIncludes` is preserved by appending on the right. -/
theorem strIncludes_append_left (s t sub : String) :
    strIncludes s sub = true → strIncludes (s ++ t) sub = true := by
  intro h
  rw [strIncludes, String.data_append]
  exact occursIn_append_left _ _ _ h

/-- `(d + 59999) / 60000` is the ceiling of the exact division
`d / 60000`, characterized order-theoretically. -/
theorem ceilDiv60000_charact (d : Nat) :
    d ≤ ((d + 59999) / 60000) * 60000 ∧
    ((d + 59999) / 60000) * 60000 < d + 60000 := by
  have h1 := Nat.div_add_mod (d + 59999) 60000
  have h2 : (d + 59999) % 60000 < 60000 := Nat.mod_lt _ (by norm_num)
  omega

/-- The failed-password branch always fails, whatever the store and the
attempt count. -/
theorem failedAttemptOutcome_result_error (s : Store) (now : Nat)
    (user : Account) :
    ∃ e, (failedAttemptOutcome s now user).result = .error e := by
  unfold failedAttemptOutcome
  split
  · cases s
    · exact ⟨.storeConflict "loginAttempts", rfl⟩
    · exact ⟨.invalidCredentials, rfl⟩
  · exact ⟨.invalidCredentials, rfl⟩

/-- C1: evaluation at the failing input.  A sub-transition failure (here
the 3rd attempt) is persisted and surfaced as claimed, but on the 5th
consecutive failure against a connected store the update document targets
`loginAttempts` with both `$inc` and `$set`; the store rejects it
(`ConflictingUpdateOperators`), so `User.authenticate` surfaces the store
error, persists nothing — no lock, no reset — and never reaches the
`Invalid credentials` throw, contradicting the claim (and the code's own
comment `Lock account after 5 failed attempts for 15 minutes`,
part_000 line 158). -/
theorem authenticate_fifth_failure_store_conflict :
    authenticate demoVerify (.connected [{ acctA with loginAttempts := 2 }])
        1000 "a1" "wrong" =
      ⟨.error .invalidCredentials,
       .connected [{ acctA with loginAttempts := 3, updatedAt := 1000 }],
       true⟩ ∧
    authenticate demoVerify (.connected [{ acctA with loginAttempts := 4 }])
        1000 "a1" "wrong" =
      ⟨.error (.storeConflict "loginAttempts"),
       .connected [{ acctA with loginAttempts := 4 }], true⟩ ∧
    (authenticate demoVerify (.connected [{ acctA with loginAttempts := 4 }])
        1000 "a1" "wrong").result ≠ .error .invalidCredentials ∧
    AuthErr.message (.storeConflict "loginAttempts") ≠
      "Invalid credentials" :=
  ⟨rfl, rfl, fun h => absurd (Except.error.inj h) (by decide), by decide⟩

/-- C2: against an account whose `lockUntil` lies strictly in the future,
`User.authenticate` throws the account-locked error carrying
`⌈(lockUntil − now) / 60000⌉` minutes — the two inequality conjuncts pin
that value as the ceiling — without comparing any password and without
touching the store. -/
theorem authenticate_locked_account
    (verify : String → String → Bool) (s : Store) (now : Nat)
    (emailOrUsername password : String) (u : Account) (t : Nat)
    (hfind : storeFindOne s (lookupQuery (jsToLower emailOrUsername)) = some u)
    (hl : u.lockUntil = some t) (hfut : now < t) :
    authenticate verify s now emailOrUsername password =
      ⟨.error (.accountLocked ((t - now + 59999) / 60000)), s, false⟩ ∧
    (t - now) ≤ ((t - now + 59999) / 60000) * 60000 ∧
    ((t - now + 59999) / 60000) * 60000 < (t - now) + 60000 ∧
    AuthErr.message (.accountLocked ((t - now + 59999) / 60000)) =
      "Account is locked. Try again in "
        ++ Nat.repr ((t - now + 59999) / 60000) ++ " minutes" := by
  refine ⟨?_, (ceilDiv60000_charact (t - now)).1,
          (ceilDiv60000_charact (t - now)).2, rfl⟩
  simp [authenticate, isLockedNow, lockMinutes, hfind, hl, hfut]

/-- C2 witness: the locked account `acctL` (lockUntil 900001, now 1)
rejects with a 15-minute retry message before any comparison. -/
theorem authenticate_locked_account_witness :
    authenticate demoVerify (.connected [acctL]) 1 "l@x.com" "secret1" =
      ⟨.error (.accountLocked ((900001 - 1 + 59999) / 60000)),
       .connected [acctL], false⟩ ∧
    (900001 - 1) ≤ ((900001 - 1 + 59999) / 60000) * 60000 ∧
    ((900001 - 1 + 59999) / 60000) * 60000 < (900001 - 1) + 60000 ∧
    AuthErr.message (.accountLocked ((900001 - 1 + 59999) / 60000)) =
      "Account is locked. Try again in "
        ++ Nat.repr ((900001 - 1 + 59999) / 60000) ++ " minutes" :=
  authenticate_locked_account demoVerify (.connected [acctL]) 1
    "l@x.com" "secret1" acctL 900001 (by decide) (by decide) (by decide)

/-- C3: when password verification succeeds, `User.authenticate` persists
an update storing `loginAttempts = 0`, `lockUntil = null` and
`lastLogin = now` on the matched document and resolves with the sanitized
success payload. -/
theorem authenticate_success_resets
    (verify : String → String → Bool) (db : List Account) (now : Nat)
    (emailOrUsername password : String) (u : Account)
    (hfind : db.find? (lookupQuery (jsToLower emailOrUsername)) = some u)
    (hnl : isLockedNow u.lockUntil now = false)
    (hpw : verify password u.password = true) :
    authenticate verify (.connected db) now emailOrUsername password =
      ⟨.ok ⟨true, authUserPayload u⟩,
       .connected (updateFirst (fun v => v._id == u._id)
         (fun v => { v with loginAttempts := 0, lockUntil := none,
                            lastLogin := some now, updatedAt := now }) db),
       true⟩ := by
  simp [authenticate, storeFindOne, storeUpdateOne, hfind, hnl, hpw]

/-- C3 witness: a successful login of a previously failed-and-unlocked
account stores attempts 0, no lock, and the login time. -/
theorem authenticate_success_resets_witness :
    authenticate demoVerify
        (.connected [{ acctA with loginAttempts := 3, lockUntil := some 900 }])
        1000 "A@X.com" "secret1" =
      ⟨.ok ⟨true, authUserPayload { acctA with loginAttempts := 3,
                                               lockUntil := some 900 }⟩,
       .connected (updateFirst (fun v => v._id == 1)
         (fun v => { v with loginAttempts := 0, lockUntil := none,
                            lastLogin := some 1000, updatedAt := 1000 })
         [{ acctA with loginAttempts := 3, lockUntil := some 900 }]),
       true⟩ :=
  authenticate_success_resets demoVerify
    [{ acctA with loginAttempts := 3, lockUntil := some 900 }] 1000
    "A@X.com" "secret1" { acctA with loginAttempts := 3, lockUntil := some 900 }
    (by decide) (by decide) (by decide)

/-- C5: whenever `User.authenticate` or `User.createUser` resolves
successfully, the returned user projection carries exactly the
non-credential keys — neither the `password` key (the stored hash) nor the
plaintext appears in the payload. -/
theorem payloads_credential_free :
    (∀ (verify : String → String → Bool) (s : Store) (now : Nat)
        (emailOrUsername password : String) (r : AuthReturn),
        (authenticate verify s now emailOrUsername password).result = .ok r →
        r.user.map Prod.fst =
          ["id", "name", "email", "username", "role", "profile", "createdAt"] ∧
        "password" ∉ r.user.map Prod.fst) ∧
    (∀ (hash : String → String) (s : Store) (now newId : Nat)
        (name email password username role : String)
        (c : CreateReturn) (s' : Store),
        createUser hash s now newId name email password username role
          = .ok (c, s') →
        c.user.map Prod.fst = ["id", "name", "email", "username", "role"] ∧
        "password" ∉ c.user.map Prod.fst) := by
  constructor
  · intro verify s now id pw r h
    unfold authenticate at h
    rcases hf : storeFindOne s (lookupQuery (jsToLower id)) with _ | u <;>
      rw [hf] at h
    · simp at h
    · by_cases hl : isLockedNow u.lockUntil now
      · simp [hl] at h
      · cases hv : verify pw u.password
        · simp [hl, hv] at h
          obtain ⟨e, he⟩ := failedAttemptOutcome_result_error s now u
          rw [he] at h
          cases h
        · simp [hl, hv] at h
          rw [← h]
          refine ⟨rfl, ?_⟩
          simp [authUserPayload]
  · intro hash s now newId name email pw un ro c s' h
    unfold createUser at h
    split at h
    · cases h
    · split at h
      · cases h
      · split at h
        · cases h
        · rcases hi : storeInsertOne s now
              (mkNewAccount hash now newId name email pw un ro)
            with ⟨s2, iid⟩ | msg <;> rw [hi] at h
          · rw [Except.ok.injEq, Prod.mk.injEq] at h
            rw [← h.1]
            refine ⟨rfl, ?_⟩
            simp [createUserPayload]
          · cases h

/-- C5 witness: concrete successful authenticate and createUser calls,
whose payload key lists exclude `password`. -/
theorem payloads_credential_free_witness :
    ((authUserPayload acctA).map Prod.fst =
      ["id", "name", "email", "username", "role", "profile", "createdAt"] ∧
     "password" ∉ (authUserPayload acctA).map Prod.fst) ∧
    ((createUserPayload (.num 7)
        (mkNewAccount demoHash 5 7 "Bob" "b@x.com" "secret1" "B1" "student")).map
          Prod.fst = ["id", "name", "email", "username", "role"] ∧
     "password" ∉ (createUserPayload (.num 7)
        (mkNewAccount demoHash 5 7 "Bob" "b@x.com" "secret1" "B1" "student")).map
          Prod.fst) :=
  ⟨payloads_credential_free.1 demoVerify (.connected [acctA]) 1000
      "a@x.com" "secret1" ⟨true, authUserPayload acctA⟩ rfl,
   payloads_credential_free.2 demoHash (.connected []) 5 7
      "Bob" "b@x.com" "secret1" "B1" "student"
      ⟨true, .num 7, createUserPayload (.num 7)
        (mkNewAccount demoHash 5 7 "Bob" "b@x.com" "secret1" "B1" "student")⟩
      (.connected [mkNewAccount demoHash 5 7 "Bob" "b@x.com" "secret1" "B1"
        "student"]) rfl⟩

/-- C6: evaluation at the failing input.  The unknown-identifier lookup
(the query `(email == lowercase(id) OR username == lowercase(id)) AND
isActive` finds nothing) fails with `Invalid credentials`, and a wrong
password ordinarily fails identically (first conjunct) — but at the
lock-transition attempt on a connected store the wrong-password failure
surfaces the store's `ConflictingUpdateOperators` error instead, a message
different from the unknown-identifier one, so the caller can distinguish
`identifier matched` from `identifier unknown`, contradicting the claimed
(and intended, spec section 7) uniform message. -/
theorem authenticate_enumeration_leak_eval :
    authenticate demoVerify (.connected [{ acctA with loginAttempts := 4 }])
        1000 "ghost" "wrong" =
      ⟨.error .invalidCredentials,
       .connected [{ acctA with loginAttempts := 4 }], false⟩ ∧
    (authenticate demoVerify (.connected [acctA]) 1000 "a1" "wrong").result =
      .error .invalidCredentials ∧
    (authenticate demoVerify (.connected [{ acctA with loginAttempts := 4 }])
        1000 "a1" "wrong").result = .error (.storeConflict "loginAttempts") ∧
    AuthErr.message (.storeConflict "loginAttempts") ≠
      AuthErr.message .invalidCredentials :=
  ⟨rfl, rfl, rfl, by decide⟩

/-- C10: for an authenticated session, `requireRole(r)` lets the request
through exactly when the session role is `r` or `admin`; an admin passes
every role check, and any other mismatch responds 403. -/
theorem requireRole_grant_iff (role : String) (u : SessionUser) :
    (requireRole role (some u) = .next ↔ (u.role = role ∨ u.role = "admin")) ∧
    requireRole role (some ⟨"admin"⟩) = .next ∧
    (u.role ≠ role → u.role ≠ "admin" →
      requireRole role (some u) = .forbidden) := by
  refine ⟨?_, ?_, ?_⟩
  · unfold requireRole
    by_cases h1 : u.role = role
    · simp [h1]
    · by_cases h2 : u.role = "admin" <;> simp [h1, h2]
  · simp [requireRole]
  · intro h1 h2
    simp [requireRole, h1, h2]

/-- C10 witness: an admin session passes a `moderator` requirement; a
student session is rejected with 403. -/
theorem requireRole_grant_iff_witness :
    requireRole "moderator" (some ⟨"admin"⟩) = .next ∧
    requireRole "moderator" (some ⟨"student"⟩) = .forbidden :=
  ⟨(requireRole_grant_iff "moderator" ⟨"admin"⟩).2.1,
   (requireRole_grant_iff "moderator" ⟨"student"⟩).2.2
     (by decide) (by decide)⟩

/-- C7: evaluation of the register route at a failing input.  In degraded
mode the account creation succeeds (mock acknowledgment) but the auto-login
throws `Invalid credentials`; because `User.authenticate` signals failure
by throwing rather than by resolving `{success: false}`, the route's
`else` branch that would redirect to `/auth/login` with the
`"Account created! Please log in."` flash (part_004 lines 1054-1058) is
unreachable, and the `catch` at line 1064 instead sends the user back to
`/auth/register` with an error flash — contradicting the claimed (and
intended) behavior. -/
theorem register_autologin_failure_eval :
    registerRoute demoHash demoVerify .degraded 0 0
        "A" "a@x.com" "a1" "secret1" "secret1" =
      ⟨.register,
       ⟨some ("A", "a@x.com", "a1"), some "Invalid credentials", none, none⟩,
       .degraded⟩ ∧
    (registerRoute demoHash demoVerify .degraded 0 0
        "A" "a@x.com" "a1" "secret1" "secret1").redirect ≠ .login ∧
    (registerRoute demoHash demoVerify .degraded 0 0
        "A" "a@x.com" "a1" "secret1" "secret1").session.success ≠
      some "Account created! Please log in." :=
  ⟨rfl, by decide, by decide⟩

/-- C4 counterexample: in the part_000 variant of
`MongoDBManager.getCollection` (lines 492-551), the degraded-mode `findOne`
throws `Database not connected for collection: users` instead of returning
a result — refuting the claim that every operation of the returned
collection object never throws. -/
theorem getCollection_v0_degraded_findOne_throws :
    MongoV0.findOne "users" false none .null =
      .error "Database not connected for collection: users" := rfl

/-- C4 amended: the part_001 mock collection never throws — reads resolve
to empty/none, inserts acknowledge with locally generated placeholder
identifiers, `updateOne`/`deleteOne` acknowledge with zero counts and no
identifier — and an acknowledged write followed by a read still finds
nothing; the part_000 variant behaves the same for
`insertMany`/`updateOne`/`deleteOne`/`countDocuments`/`aggregate`, but its
degraded `find`/`findOne`/`insertOne` throw. -/
theorem getCollection_degraded_contract :
    (∀ (q : JsVal), MongoV1.findOne q = .ok none) ∧
    (∀ (q k pr : JsVal) (off lim : Nat),
      (((((MongoV1.find q).sort k).skip off).limit lim).project pr).toArray
        = .ok []) ∧
    (∀ (now : Nat) (d : JsVal),
      MongoV1.insertOne now d = .ok ⟨"mock-id-" ++ Nat.repr now, true⟩) ∧
    (∀ (now : Nat) (ds : List JsVal),
      MongoV1.insertMany now ds =
        .ok ⟨(List.range ds.length).map
          (fun i => "mock-id-" ++ Nat.repr now ++ "-" ++ Nat.repr i), true⟩) ∧
    (∀ (f u : JsVal), MongoV1.updateOne f u = .ok ⟨0, true⟩) ∧
    (∀ (f : JsVal), MongoV1.deleteOne f = .ok ⟨0, true⟩) ∧
    (∀ (q : JsVal), MongoV1.countDocuments q = .ok 0) ∧
    (∀ (p : List JsVal), MongoV1.aggregateToArray p = .ok []) ∧
    (∀ (now : Nat) (d q : JsVal),
      MongoV1.insertOne now d = .ok ⟨"mock-id-" ++ Nat.repr now, true⟩ ∧
      MongoV1.findOne q = .ok none) ∧
    (∀ (now : Nat) (ds : List JsVal),
      MongoV0.insertMany now ds =
        .ok ⟨(List.range ds.length).map
          (fun i => "mock-id-" ++ Nat.repr now ++ "-" ++ Nat.repr i), true⟩) ∧
    (∀ (f u : JsVal), MongoV0.updateOne f u = .ok ⟨0, true⟩) ∧
    (∀ (f : JsVal), MongoV0.deleteOne f = .ok ⟨0, true⟩) ∧
    (∀ (q : JsVal), MongoV0.countDocuments q = .ok 0) ∧
    (∀ (p : List JsVal), MongoV0.aggregateToArray p = .ok []) ∧
    (∀ (name : String) (delegate : List JsVal) (q : JsVal),
      MongoV0.find name false delegate q =
        .error ("Database not connected for collection: " ++ name)) ∧
    (∀ (name : String) (delegate : Option JsVal) (q : JsVal),
      MongoV0.findOne name false delegate q =
        .error ("Database not connected for collection: " ++ name)) ∧
    (∀ (name : String) (delegate : InsOneResult) (d : JsVal),
      MongoV0.insertOne name false delegate d =
        .error ("Database not connected for collection: " ++ name)) :=
  ⟨fun _ => rfl, fun _ _ _ _ _ => rfl, fun _ _ => rfl, fun _ _ => rfl,
   fun _ _ => rfl, fun _ => rfl, fun _ => rfl, fun _ => rfl,
   fun _ _ _ => ⟨rfl, rfl⟩, fun _ _ => rfl, fun _ _ => rfl, fun _ => rfl,
   fun _ => rfl, fun _ => rfl, fun _ _ _ => rfl, fun _ _ _ => rfl,
   fun _ _ _ => rfl⟩

/-- C8 counterexample: with an existing account whose username is
`email`, a registration colliding on the USERNAME field is reported as
`"Email already exists"`: the handler classifies the duplicate-key error
by searching its message for the substring `'email'` (part_000 line 115),
and here that substring occurs as the duplicated username value. -/
theorem createUser_username_collision_misreported :
    createUser demoHash (.connected [acctB]) 5 7
        "Carl" "c@z.com" "secret9" "Email" "student" =
      .error "Email already exists" := rfl

/-- C8 amended: the duplicate-key handler maps by message content, not by
the collided field: an email-index collision always yields
`"Email already exists"` (the message contains `'email'` as the index
name), while a username-index collision yields
`"Username already exists"` exactly when the generated message does not
contain `'email'` — so a duplicated username containing `'email'` is
misreported as an email collision. -/
theorem createUser_duplicate_message_mapping
    (hash : String → String) (db : List Account) (now newId : Nat)
    (name email password username role : String)
    (hne : (name == "" || email == "" || password == "" || username == "")
             = false)
    (hreg : matchesEmailRegex email = true)
    (hlen : ¬password.length < 6) :
    (List.any db (fun v => v.email == jsToLower email) = true →
      createUser hash (.connected db) now newId name email password username
          role = .error "Email already exists") ∧
    (List.any db (fun v => v.email == jsToLower email) = false →
     List.any db (fun v => v.username == jsToLower username) = true →
     strIncludes (dupKeyMessage "username" (jsToLower username)) "email"
       = false →
      createUser hash (.connected db) now newId name email password username
          role = .error "Username already exists") := by
  have hx : strIncludes (dupKeyMessage "email" (jsToLower email)) "email"
      = true := by
    unfold dupKeyMessage
    exact strIncludes_append_left _ _ _ (by decide)
  constructor
  · intro hany
    unfold createUser
    simp [hne, hreg, hlen, storeInsertOne, mkNewAccount, hany, hx]
  · intro hany1 hany2 hmsg
    unfold createUser
    simp [hne, hreg, hlen, storeInsertOne, mkNewAccount, hany1, hany2, hmsg]

/-- C8 witness: a true email collision is reported as
`"Email already exists"`, and a username collision whose username does not
contain `'email'` is reported as `"Username already exists"`. -/
theorem createUser_duplicate_message_mapping_witness :
    createUser demoHash (.connected [acctA]) 5 7
        "Dana" "A@X.com" "secret1" "newuser" "student" =
      .error "Email already exists" ∧
    createUser demoHash (.connected [acctA]) 5 7
        "Dana" "d@z.com" "secret1" "A1" "student" =
      .error "Username already exists" :=
  ⟨(createUser_duplicate_message_mapping demoHash [acctA] 5 7
      "Dana" "A@X.com" "secret1" "newuser" "student"
      (by decide) (by decide) (by decide)).1 (by decide),
   (createUser_duplicate_message_mapping demoHash [acctA] 5 7
      "Dana" "d@z.com" "secret1" "A1" "student"
      (by decide) (by decide) (by decide)).2
      (by decide) (by decide) (by decide)⟩

/-- The deletion marker always changes the string:
`deleted_<ts>_<s> ≠ s`, by length. -/
theorem deleted_marker_ne (r s : String) :
    ("deleted_" ++ r ++ "_" ++ s) ≠ s := by
  intro h
  have hl := congrArg String.length h
  rw [String.length_append, String.length_append, String.length_append] at hl
  have h8 : ("deleted_" : String).length = 8 := rfl
  have h1 : ("_" : String).length = 1 := rfl
  omega

/-- C9: soft-deleting the unique account holding an email/username pair
marks it inactive, rewrites both identifiers with the timestamped deletion
marker, leaves no document carrying the original identifiers, and a
subsequent valid registration with the original (case-insensitive) email
and username succeeds. -/
theorem deleteUser_frees_identity
    (db : List Account) (u : Account) (uid now : Nat)
    (hash : String → String) (now2 newId : Nat)
    (name2 email2 password2 username2 role2 : String)
    (hfind : db.find? (fun v => v._id == uid) = some u)
    (hcount : db.countP (fun v => v._id == uid) ≤ 1)
    (hemail : ∀ v ∈ db, v.email = u.email → v._id = uid)
    (husername : ∀ v ∈ db, v.username = u.username → v._id = uid)
    (he2 : jsToLower email2 = u.email)
    (hu2 : jsToLower username2 = u.username)
    (hne : (name2 == "" || email2 == "" || password2 == "" || username2 == "")
             = false)
    (hreg : matchesEmailRegex email2 = true)
    (hlen : ¬password2.length < 6) :
    ∃ db',
      deleteUser db now uid = .ok (true, db') ∧
      (∀ v ∈ db', v.email ≠ u.email ∧ v.username ≠ u.username) ∧
      (∃ w ∈ db', w._id = uid ∧ w.isActive = false ∧
        w.email = "deleted_" ++ Nat.repr now ++ "_" ++ u.email ∧
        w.username = "deleted_" ++ Nat.repr now ++ "_" ++ u.username) ∧
      ∃ c db'', createUser hash (.connected db') now2 newId
          name2 email2 password2 username2 role2 = .ok (c, db'') := by
  have huid : u._id = uid := by simpa using List.find?_some hfind
  have hfree : ∀ v ∈ updateFirst (fun v => v._id == uid)
      (softDeleteSet now u) db,
      v.email ≠ u.email ∧ v.username ≠ u.username := by
    intro v hv
    rcases updateFirst_sound (fun v => v._id == uid) (softDeleteSet now u)
        db u hfind hcount v hv with h | ⟨hvdb, hp⟩
    · subst h
      exact ⟨deleted_marker_ne _ _, deleted_marker_ne _ _⟩
    · constructor
      · intro heq
        rw [hemail v hvdb heq] at hp
        simp at hp
      · intro heq
        rw [husername v hvdb heq] at hp
        simp at hp
  refine ⟨updateFirst (fun v => v._id == uid) (softDeleteSet now u) db,
          ?_, hfree, ?_, ?_⟩
  · unfold deleteUser
    rw [hfind]
  · exact ⟨softDeleteSet now u u,
      updateFirst_has (fun v => v._id == uid) (softDeleteSet now u) db u hfind,
      huid, rfl, rfl, rfl⟩
  · have hany1 : List.any
        (updateFirst (fun v => v._id == uid) (softDeleteSet now u) db)
        (fun v => v.email == jsToLower email2) = false := by
      rw [he2]
      cases hb : List.any
          (updateFirst (fun v => v._id == uid) (softDeleteSet now u) db)
          (fun v => v.email == u.email)
      · rfl
      · exfalso
        obtain ⟨x, hx, hpx⟩ := List.any_eq_true.mp hb
        exact (hfree x hx).1 (by simpa using hpx)
    have hany2 : List.any
        (updateFirst (fun v => v._id == uid) (softDeleteSet now u) db)
        (fun v => v.username == jsToLower username2) = false := by
      rw [hu2]
      cases hb : List.any
          (updateFirst (fun v => v._id == uid) (softDeleteSet now u) db)
          (fun v => v.username == u.username)
      · rfl
      · exfalso
        obtain ⟨x, hx, hpx⟩ := List.any_eq_true.mp hb
        exact (hfree x hx).2 (by simpa using hpx)
    refine ⟨⟨true, .num newId,
        createUserPayload (.num newId)
          (mkNewAccount hash now2 newId name2 email2 password2 username2
            role2)⟩,
      .connected (updateFirst (fun v => v._id == uid) (softDeleteSet now u) db
        ++ [mkNewAccount hash now2 newId name2 email2 password2 username2
              role2]), ?_⟩
    unfold createUser
    simp [hne, hreg, hlen, storeInsertOne, mkNewAccount, hany1, hany2]

/-- C9 witness: deleting `acctA` (id 1) at time 99 frees `a@x.com` / `a1`,
and a fresh registration with `A@X.com` / `A1` then succeeds. -/
theorem deleteUser_frees_identity_witness :
    ∃ db',
      deleteUser [acctA] 99 1 = .ok (true, db') ∧
      (∀ v ∈ db', v.email ≠ acctA.email ∧ v.username ≠ acctA.username) ∧
      (∃ w ∈ db', w._id = 1 ∧ w.isActive = false ∧
        w.email = "deleted_" ++ Nat.repr 99 ++ "_" ++ acctA.email ∧
        w.username = "deleted_" ++ Nat.repr 99 ++ "_" ++ acctA.username) ∧
      ∃ c db'', createUser demoHash (.connected db') 120 9
          "Anna" "A@X.com" "secret7" "A1" "student" = .ok (c, db'') :=
  deleteUser_frees_identity [acctA] acctA 1 99 demoHash 120 9
    "Anna" "A@X.com" "secret7" "A1" "student"
    (by decide) (by decide) (by decide) (by decide)
    (by decide) (by decide) (by decide) (by decide) (by decide)

example : matchesEmailRegex "a@x.com" = true := by decide
example : matchesEmailRegex "a@xcom" = false := by decide
example : matchesEmailRegex "ax.com" = false := by decide
example : matchesEmailRegex "a@x@y.com" = false := by decide
example : matchesEmailRegex "a b@x.com" = false := by decide
example : jsToLower "EmAil" = "email" := by decide
example : strIncludes "username_1 dup" "email" = false := by decide
example : strIncludes "index: email_1" "email" = true := by decide
